import Mathlib

/-! Shallow embedding of the FAIA model-training scripts
(`flutter_ai_assistant/lib/model_training/train_model.py` and
`flutter_ai_assistant/lib/model_training/export_tflite.py`), together with
the behaviour of the external library routines they call (keras text
preprocessing, keras `pad_sequences`, sklearn `LabelEncoder`, the keras
`EarlyStopping` callback), and proofs settling the specification claims.

Filesystem and framework effects are modelled as explicit event traces;
outcomes of external framework calls (model training, TFLite conversion)
are inputs of the embedded pipeline functions. -/

namespace Keras

/-- Default filter characters of `keras.preprocessing.text`: each one is
replaced by the split character (a space) before splitting. -/
def keras_filters : String := "!\"#$%&()*+,-./:;<=>?@[\\]^_`\x7b|\x7d~\t\n"

def is_filter_char (c : Char) : Bool := keras_filters.data.contains c

/-- Split a character list on a separator, keeping empty pieces (the
behaviour of Python `str.split(sep)` on an explicit separator). -/
def splitOnSpace : List Char → List (List Char)
  | [] => [[]]
  | c :: cs =>
    let ws := splitOnSpace cs
    if c = ' ' then [] :: ws
    else
      match ws with
      | [] => [[c]]
      | w :: rest => (c :: w) :: rest

/-- keras `text_to_word_sequence`: lower-case the text, replace every filter
character by a space, split on spaces, drop the empty pieces. -/
def text_to_word_sequence (text : String) : List String :=
  let lowered := text.data.map Char.toLower
  let translated := lowered.map (fun c => if is_filter_char c then ' ' else c)
  ((splitOnSpace translated).map String.mk).filter (fun w => w ≠ "")

/-- State of a keras `Tokenizer`: the constructor arguments `num_words` and
`oov_token`, and the fitted `word_index` (token to id, ids from 1). -/
structure Tokenizer where
  num_words : Option Nat
  oov_token : String
  word_index : List (String × Nat)
  deriving DecidableEq

/-- One `word_counts[w] += 1` update on the insertion-ordered counts dict. -/
def bump (counts : List (String × Nat)) (w : String) : List (String × Nat) :=
  match counts with
  | [] => [(w, 1)]
  | (t, c) :: rest => if t = w then (t, c + 1) :: rest else (t, c) :: bump rest w

/-- Frequency pass of `fit_on_texts`: token counts over the whole corpus in
first-seen order. -/
def word_counts (texts : List String) : List (String × Nat) :=
  texts.foldl (fun counts text => (text_to_word_sequence text).foldl bump counts) []

/-- keras `Tokenizer.fit_on_texts`: sort the counted tokens by descending
frequency, stably, so ties keep first-seen order (a stable sort has a
unique result, here computed by stable insertion sort); put the OOV token
first and assign ids starting from 1. Note that `num_words` plays no role
here: the fitted `word_index` is not capped. -/
def fit_on_texts (tk : Tokenizer) (texts : List String) : Tokenizer :=
  let wcounts := (word_counts texts).insertionSort (fun a b => b.2 ≤ a.2)
  let sorted_voc := tk.oov_token :: wcounts.map Prod.fst
  { tk with word_index := sorted_voc.zip (List.range' 1 sorted_voc.length) }

/-- Dictionary lookup in the (duplicate-free) `word_index`. -/
def lookup_index (word_index : List (String × Nat)) (w : String) : Option Nat :=
  match word_index with
  | [] => none
  | (t, i) :: rest => if t = w then some i else lookup_index rest w

/-- keras `Tokenizer.texts_to_sequences`: map each token to its id; an id at
or above `num_words` (when `num_words` is set and nonzero, Python truthiness)
or an unknown token is replaced by the OOV id when an OOV token exists. -/
def Tokenizer.texts_to_sequences (tk : Tokenizer) (texts : List String) : List (List Nat) :=
  let oov_index := lookup_index tk.word_index tk.oov_token
  texts.map (fun text =>
    (text_to_word_sequence text).foldr (fun w vect =>
      match lookup_index tk.word_index w with
      | some i =>
        match tk.num_words with
        | some n =>
          if n ≠ 0 ∧ n ≤ i then
            match oov_index with
            | some oi => oi :: vect
            | none => vect
          else i :: vect
        | none => i :: vect
      | none =>
        match oov_index with
        | some oi => oi :: vect
        | none => vect) [])

/-- keras `pad_sequences` on one sequence, with `padding='post'` and
`truncating='post'` as both scripts pass: keep the first `maxlen` entries,
then pad with the value 0 at the end up to length `maxlen`. -/
def pad_one (maxlen : Nat) (s : List Nat) : List Nat :=
  let truncated := s.take maxlen
  truncated ++ List.replicate (maxlen - truncated.length) 0

/-- keras `pad_sequences` (`padding='post'`, `truncating='post'`, value 0). -/
def pad_sequences (sequences : List (List Nat)) (maxlen : Nat) : List (List Nat) :=
  sequences.map (pad_one maxlen)

end Keras

namespace Sklearn

/-- sklearn `LabelEncoder.fit`: `classes_` is the sorted list of the
distinct labels (`numpy.unique`); sorting a duplicate-free list has a
unique result, whatever sorting algorithm computes it. -/
def label_encoder_fit (labels : List String) : List String :=
  (labels.dedup).insertionSort (fun a b => a ≤ b)

/-- sklearn `LabelEncoder.transform` on one label present in `classes_`: its
position in the sorted classes list. -/
def label_index : List String → String → Nat
  | [], _ => 0
  | c :: cs, l => if c = l then 0 else label_index cs l + 1

end Sklearn

namespace KerasCallbacks

/-- State of the keras `EarlyStopping` callback (mode `min`, `min_delta` 0,
no baseline). `best = none` stands for the initial infinite best; the model
weights a state would restore are identified by the epoch index at which
they were saved (`best_epoch`). -/
structure ESState where
  wait : Nat
  best : Option Rat
  best_epoch : Nat
  stopped_epoch : Option Nat
  deriving DecidableEq

/-- keras `EarlyStopping._is_improvement` for `monitor='val_loss'`
(mode `min`, `min_delta = 0`): strictly below the best seen so far. -/
def is_improvement (current : Rat) (best : Option Rat) : Bool :=
  match best with
  | none => true
  | some b => decide (current < b)

/-- keras `EarlyStopping.on_epoch_end`: increment `wait`; on improvement
record the new best (and its weights) and reset `wait`; stop when `wait`
reaches the patience (never at epoch 0). -/
def es_epoch_end (patience : Nat) (epoch : Nat) (current : Rat) (s : ESState) : ESState :=
  let wait0 := s.wait + 1
  let (best, best_epoch, wait) :=
    if is_improvement current s.best then (some current, epoch, 0)
    else (s.best, s.best_epoch, wait0)
  if patience ≤ wait ∧ 0 < epoch then
    { wait := wait, best := best, best_epoch := best_epoch, stopped_epoch := some epoch }
  else
    { wait := wait, best := best, best_epoch := best_epoch, stopped_epoch := none }

/-- The epoch loop of `model.fit` as seen by the callback: feed the
validation losses in order, halting as soon as the callback sets
`stop_training`. -/
def es_run_from (patience : Nat) : Nat → ESState → List Rat → ESState
  | _, s, [] => s
  | epoch, s, c :: cs =>
    let s2 := es_epoch_end patience epoch c s
    match s2.stopped_epoch with
    | some _ => s2
    | none => es_run_from patience (epoch + 1) s2 cs

/-- Run the `EarlyStopping` callback over a whole sequence of per-epoch
validation losses. -/
def early_stopping (patience : Nat) (losses : List Rat) : ESState :=
  es_run_from patience 0 { wait := 0, best := none, best_epoch := 0, stopped_epoch := none } losses

/-- Weights held by the model when training ends: with
`restore_best_weights=True` the best-seen weights when the callback
stopped the run, otherwise the weights after the last epoch. -/
def final_weights (s : ESState) (num_epochs : Nat) : Nat :=
  match s.stopped_epoch with
  | some _ => s.best_epoch
  | none => num_epochs - 1

end KerasCallbacks

namespace TrainModel

/-- The `CONFIG` dictionary of `train_model.py`. -/
structure TrainConfig where
  max_vocab_size : Nat
  max_sequence_length : Nat
  embedding_dim : Nat
  hidden_units : Nat
  dropout_rate : Rat
  batch_size : Nat
  epochs : Nat
  learning_rate : Rat
  validation_split : Rat
  model_save_path : String
  tokenizer_save_path : String
  label_encoder_save_path : String

def CONFIG : TrainConfig :=
  { max_vocab_size := 10000
    max_sequence_length := 32
    embedding_dim := 128
    hidden_units := 64
    dropout_rate := 3 / 10
    batch_size := 32
    epochs := 100
    learning_rate := 1 / 1000
    validation_split := 1 / 5
    model_save_path := "models/intent_classifier.h5"
    tokenizer_save_path := "models/tokenizer.json"
    label_encoder_save_path := "models/label_encoder.json" }

/-- The in-memory table `load_data` builds (a DataFrame with columns
`text` and `intent`). -/
structure DataFrame where
  texts : List String
  intents : List String

/-- `load_data` of `train_model.py`: the embedded sample intent dataset. -/
def load_data : DataFrame :=
  { texts :=
      [ "What's the weather like?"
      , "How's the weather today?"
      , "Is it going to rain?"
      , "What's the temperature?"
      , "Will it be sunny tomorrow?"
      , "Check the weather forecast"
      , "Is it cold outside?"
      , "What's the weather forecast for this week?"
      , "What time is it?"
      , "Tell me the current time"
      , "What's the time now?"
      , "Show me the clock"
      , "What time is it in New York?"
      , "Current time please"
      , "Hello"
      , "Hi there"
      , "Good morning"
      , "Good evening"
      , "Hey"
      , "How are you?"
      , "Nice to meet you"
      , "Greetings"
      , "Play some music"
      , "Play my favorite song"
      , "Turn on the radio"
      , "Play rock music"
      , "Start the music player"
      , "I want to listen to music"
      , "Play something upbeat"
      , "What's on my calendar?"
      , "Show me my schedule"
      , "Do I have any meetings today?"
      , "What's my next appointment?"
      , "Check my calendar"
      , "Schedule a meeting"
      , "What's in the news?"
      , "Show me the latest news"
      , "Tell me about current events"
      , "What's happening in the world?"
      , "Read me the news"
      , "Any breaking news?"
      , "Help me"
      , "What can you do?"
      , "Tell me a joke"
      , "How do I use this app?"
      , "What are your features?"
      , "Show me the menu" ]
  , intents :=
      [ "weather", "weather", "weather", "weather", "weather", "weather", "weather", "weather"
      , "time", "time", "time", "time", "time", "time"
      , "greeting", "greeting", "greeting", "greeting", "greeting", "greeting", "greeting", "greeting"
      , "music", "music", "music", "music", "music", "music", "music"
      , "calendar", "calendar", "calendar", "calendar", "calendar", "calendar"
      , "news", "news", "news", "news", "news", "news"
      , "help", "help", "help", "help", "help", "help" ] }

/-- `tf.keras.utils.to_categorical`: one-hot row of width `num_classes`. -/
def to_categorical_row (num_classes : Nat) (i : Nat) : List Nat :=
  (List.range num_classes).map (fun j => if j = i then 1 else 0)

/-- Result of `preprocess_data`: padded sequences `X`, one-hot labels `y`,
the fitted tokenizer and the fitted label encoder (its `classes_` list). -/
structure PreprocessResult where
  X : List (List Nat)
  y : List (List Nat)
  tokenizer : Keras.Tokenizer
  classes : List String

/-- `preprocess_data` of `train_model.py`: build a tokenizer with
`num_words = CONFIG['max_vocab_size']` and `oov_token='<OOV>'`, fit it on
the texts, convert and pad the sequences, and fit-transform the labels. -/
def preprocess_data (texts : List String) (intents : List String) : PreprocessResult :=
  let tokenizer0 : Keras.Tokenizer :=
    { num_words := some CONFIG.max_vocab_size, oov_token := "<OOV>", word_index := [] }
  let tokenizer := Keras.fit_on_texts tokenizer0 texts
  let sequences := tokenizer.texts_to_sequences texts
  let X := Keras.pad_sequences sequences CONFIG.max_sequence_length
  let classes := Sklearn.label_encoder_fit intents
  let encoded := intents.map (Sklearn.label_index classes)
  let y := encoded.map (to_categorical_row classes.length)
  { X := X, y := y, tokenizer := tokenizer, classes := classes }

/-- The architecture `create_model` wires up (sizes only; the learned
parameters belong to the external framework). -/
structure ModelArch where
  input_length : Nat
  embedding_input_dim : Nat
  embedding_output_dim : Nat
  dense1_units : Nat
  dense2_units : Nat
  dropout_rate : Rat
  output_units : Nat

/-- `create_model` of `train_model.py`. -/
def create_model (vocab_size : Nat) (num_classes : Nat) : ModelArch :=
  { input_length := CONFIG.max_sequence_length
    embedding_input_dim := vocab_size
    embedding_output_dim := CONFIG.embedding_dim
    dense1_units := CONFIG.hidden_units
    dense2_units := CONFIG.hidden_units / 2
    dropout_rate := CONFIG.dropout_rate
    output_units := num_classes }

/-- The `vocab_size` computed in `train_model` (line 225): the fitted
`word_index` size plus one, capped at `max_vocab_size`. -/
def train_model_vocab_size (tokenizer : Keras.Tokenizer) : Nat :=
  min (tokenizer.word_index.length + 1) CONFIG.max_vocab_size

/-- Arguments of the `EarlyStopping` callback built in `train_model`. -/
structure EarlyStoppingArgs where
  monitor : String
  patience : Nat
  restore_best_weights : Bool

def early_stopping_callback : EarlyStoppingArgs :=
  { monitor := "val_loss", patience := 10, restore_best_weights := true }

/-- Contents written by `train_model` (the model checkpoint files written by
`ModelCheckpoint` during `model.fit` belong to the framework side of `fit`
and are not separate events here). -/
inductive TrainFileData where
  | tokenizerJson (tk : Keras.Tokenizer)
  | labelEncoderJson (classes : List String)
  | historyJson
  deriving DecidableEq

/-- Observable effects of `train_model`, in program order. -/
inductive TrainEvent where
  | makedirs (dir : String)
  | fit
  | writeFile (path : String) (data : TrainFileData)
  | evaluate
  deriving DecidableEq

/-- Outcome of the external `model.fit` call: the training loop either
completes (returning a history) or raises. -/
structure TrainEnv where
  fit_outcome : Except String Unit

/-- `train_model` of `train_model.py` as an event trace: create the models
directory, load and preprocess the data, train (`model.fit`), and only
after training returns save the tokenizer, the label encoder, evaluate,
and save the history. An exception from `model.fit` propagates and aborts
the script before any of those writes. -/
def train_model (env : TrainEnv) : List TrainEvent × Except String Unit :=
  let df := load_data
  let pre := preprocess_data df.texts df.intents
  let _vocab_size := train_model_vocab_size pre.tokenizer
  let _num_classes := pre.classes.length
  let ev := [TrainEvent.makedirs "models", TrainEvent.fit]
  match env.fit_outcome with
  | Except.error e => (ev, Except.error e)
  | Except.ok _ =>
    let ev := ev ++ [TrainEvent.writeFile CONFIG.tokenizer_save_path (TrainFileData.tokenizerJson pre.tokenizer)]
    let ev := ev ++ [TrainEvent.writeFile CONFIG.label_encoder_save_path (TrainFileData.labelEncoderJson pre.classes)]
    let ev := ev ++ [TrainEvent.evaluate]
    let ev := ev ++ [TrainEvent.writeFile "models/training_history.json" TrainFileData.historyJson]
    (ev, Except.ok ())

end TrainModel

namespace ExportTflite

/-- The `CONFIG` dictionary of `export_tflite.py`. -/
structure ExportConfig where
  model_path : String
  tokenizer_path : String
  label_encoder_path : String
  tflite_model_path : String
  tflite_quantized_path : String
  model_metadata_path : String
  max_sequence_length : Nat
  representative_dataset_size : Nat

def CONFIG : ExportConfig :=
  { model_path := "models/intent_classifier.h5"
    tokenizer_path := "models/tokenizer.json"
    label_encoder_path := "models/label_encoder.json"
    tflite_model_path := "assets/model.tflite"
    tflite_quantized_path := "assets/model_quantized.tflite"
    model_metadata_path := "assets/model_metadata.json"
    max_sequence_length := 32
    representative_dataset_size := 100 }

/-- The tensor element types this script mentions. -/
inductive Dtype where
  | float32
  | int8
  deriving DecidableEq

/-- The converter settings the script makes before calling `convert()`. -/
structure ConverterArgs where
  optimizations_default : Bool
  has_representative_dataset : Bool
  supported_ops_int8 : Bool
  inference_input_type : Option Dtype
  inference_output_type : Option Dtype
  deriving DecidableEq

/-- Settings of `converter_quantized` (lines 111-123): full-integer
quantization with declared int8 input and output types. -/
def converter_quantized_args : ConverterArgs :=
  { optimizations_default := true
    has_representative_dataset := true
    supported_ops_int8 := true
    inference_input_type := some Dtype.int8
    inference_output_type := some Dtype.int8 }

/-- Settings of the fallback `converter_dynamic` (lines 142-143):
dynamic-range quantization only. -/
def converter_dynamic_args : ConverterArgs :=
  { optimizations_default := true
    has_representative_dataset := false
    supported_ops_int8 := false
    inference_input_type := none
    inference_output_type := none }

/-- The fixed sample sentences of `create_representative_dataset`. -/
def sample_texts : List String :=
  [ "What's the weather like?"
  , "What time is it?"
  , "Hello there"
  , "Play some music"
  , "Show me my calendar"
  , "What's in the news?"
  , "Help me with this"
  , "Good morning"
  , "Is it going to rain?"
  , "Play my favorite song"
  , "What's on my schedule?"
  , "Tell me a joke"
  , "How's the weather today?"
  , "What's the current time?"
  , "Hi there"
  , "Turn on the radio"
  , "Check my appointments"
  , "What's happening in the world?"
  , "What can you do?"
  , "Good evening" ]

/-- `create_representative_dataset`: tokenize and pad the sample texts, and
yield up to `representative_dataset_size` of them as batch-1 arrays cast to
float32. -/
def create_representative_dataset (tokenizer : Keras.Tokenizer) :
    List (List (List Nat) × Dtype) :=
  let sequences := tokenizer.texts_to_sequences sample_texts
  let padded_sequences := Keras.pad_sequences sequences CONFIG.max_sequence_length
  (padded_sequences.take CONFIG.representative_dataset_size).map
    (fun row => ([row], Dtype.float32))

/-- The metadata record written to `assets/model_metadata.json`. -/
structure TokenizerConfigJson where
  num_words : Option Nat
  oov_token : String
  deriving DecidableEq

structure Metadata where
  model_name : String
  model_version : String
  input_shape : List Nat
  output_shape : List Nat
  class_names : List String
  max_sequence_length : Nat
  vocab_size : Nat
  tokenizer_config : TokenizerConfigJson
  padding : String
  truncating : String
  deriving DecidableEq

/-- The `metadata` dictionary built at lines 154-167 of `export_tflite.py`;
note `vocab_size` is `len(tokenizer.word_index) + 1` with no cap. -/
def make_metadata (tokenizer : Keras.Tokenizer) (class_names : List String) : Metadata :=
  { model_name := "Intent Classification Model"
    model_version := "1.0.0"
    input_shape := [1, CONFIG.max_sequence_length]
    output_shape := [1, class_names.length]
    class_names := class_names
    max_sequence_length := CONFIG.max_sequence_length
    vocab_size := tokenizer.word_index.length + 1
    tokenizer_config := { num_words := tokenizer.num_words, oov_token := tokenizer.oov_token }
    padding := "post"
    truncating := "post" }

/-- Contents written by the export script. -/
inductive FileData where
  | bytes (b : List Nat)
  | json (m : Metadata)
  deriving DecidableEq

/-- Observable effects of `export_tflite_model` and `test_inference`, in
program order. A `convert…` event records that the corresponding external
conversion was attempted (whether or not it then raised). -/
inductive Event where
  | makedirs (dir : String)
  | loadModel (path : String)
  | loadFile (path : String)
  | convertFloat
  | convertIntQuant (args : ConverterArgs)
  | convertDynamic (args : ConverterArgs)
  | writeFile (path : String) (data : FileData)
  | setInputTensor (path : String) (data : List (List Nat)) (dtype : Dtype)
  | invoke (path : String)
  deriving DecidableEq

/-- How an export run can abort. -/
inductive ExportError where
  | modelNotFound
  | tokenizerNotFound
  | labelEncoderNotFound
  | conversionFailed (msg : String)
  deriving DecidableEq

/-- External state and framework outcomes an export run is exposed to: the
artifact files the training run may or may not have produced, and the
results of the three TFLite conversions (each either bytes or a raised
exception). -/
structure ExportEnv where
  model_file : Option Unit
  tokenizer_file : Option Keras.Tokenizer
  label_encoder_file : Option (List String)
  float_convert : Except String (List Nat)
  int_quant_convert : Except String (List Nat)
  dynamic_convert : Except String (List Nat)

/-- The fixed test sentences of `test_inference`. -/
def test_texts : List String :=
  [ "What's the weather like?"
  , "What time is it?"
  , "Hello there"
  , "Play some music" ]

/-- `test_inference` of `export_tflite.py` as an event trace: for each test
text, tokenize and pad it exactly as in training, then set it as the
interpreter input cast to float32 (`padded.astype(np.float32)`, line 213)
and invoke. The interpreter itself is an external black box; only its
input-side contract is recorded. -/
def test_inference (model_path : String) (tokenizer : Keras.Tokenizer) : List Event :=
  test_texts.flatMap (fun text =>
    let sequence := tokenizer.texts_to_sequences [text]
    let padded := Keras.pad_sequences sequence CONFIG.max_sequence_length
    [Event.setInputTensor model_path padded Dtype.float32, Event.invoke model_path])

/-- `export_tflite_model` of `export_tflite.py` as an event trace: make the
assets directory; load the model, tokenizer and label encoder (each missing
file raises and aborts); convert to float32 TFLite and write it; attempt
full-integer quantization, and on an exception fall back to dynamic-range
conversion, writing whichever result to the quantized path; write the
metadata; then run `test_inference` on both written artifacts. -/
def export_tflite_model (env : ExportEnv) : List Event × Except ExportError Unit :=
  let ev := [Event.makedirs "assets", Event.loadModel CONFIG.model_path]
  match env.model_file with
  | none => (ev, Except.error ExportError.modelNotFound)
  | some _ =>
    let ev := ev ++ [Event.loadFile CONFIG.tokenizer_path]
    match env.tokenizer_file with
    | none => (ev, Except.error ExportError.tokenizerNotFound)
    | some tokenizer =>
      let ev := ev ++ [Event.loadFile CONFIG.label_encoder_path]
      match env.label_encoder_file with
      | none => (ev, Except.error ExportError.labelEncoderNotFound)
      | some class_names =>
        let ev := ev ++ [Event.convertFloat]
        match env.float_convert with
        | Except.error e => (ev, Except.error (ExportError.conversionFailed e))
        | Except.ok tflite_model =>
          let ev := ev ++ [Event.writeFile CONFIG.tflite_model_path (FileData.bytes tflite_model)]
          let _representative := create_representative_dataset tokenizer
          let ev := ev ++ [Event.convertIntQuant converter_quantized_args]
          let finish := fun (ev : List Event) =>
            let metadata := make_metadata tokenizer class_names
            let ev := ev ++ [Event.writeFile CONFIG.model_metadata_path (FileData.json metadata)]
            let ev := ev ++ test_inference CONFIG.tflite_model_path tokenizer
            let ev := ev ++ test_inference CONFIG.tflite_quantized_path tokenizer
            (ev, Except.ok ())
          match env.int_quant_convert with
          | Except.ok tflite_quantized_model =>
            finish (ev ++ [Event.writeFile CONFIG.tflite_quantized_path (FileData.bytes tflite_quantized_model)])
          | Except.error _ =>
            let ev := ev ++ [Event.convertDynamic converter_dynamic_args]
            match env.dynamic_convert with
            | Except.error e2 => (ev, Except.error (ExportError.conversionFailed e2))
            | Except.ok tflite_quantized_model =>
              finish (ev ++ [Event.writeFile CONFIG.tflite_quantized_path (FileData.bytes tflite_quantized_model)])

end ExportTflite

namespace Keras

theorem pad_one_length (maxlen : Nat) (s : List Nat) : (pad_one maxlen s).length = maxlen := by
  simp [pad_one]

theorem pad_one_of_long {maxlen : Nat} {s : List Nat} (h : maxlen ≤ s.length) :
    pad_one maxlen s = s.take maxlen := by
  simp [pad_one, List.length_take, Nat.min_eq_left h]

theorem pad_one_of_short {maxlen : Nat} {s : List Nat} (h : s.length ≤ maxlen) :
    pad_one maxlen s = s ++ List.replicate (maxlen - s.length) 0 := by
  simp [pad_one, List.take_of_length_le h]

end Keras

/-- C4: every padded sequence produced by preprocessing has length exactly
`max_sequence_length`; longer sequences are truncated from the end (the
first `max_sequence_length` entries are kept) and shorter ones are padded
with the sentinel 0 at the end. The last conjunct applies this to every row
of the `X` matrix `preprocess_data` returns. -/
theorem C4_padded_length_exact :
    (∀ s : List Nat,
      (Keras.pad_one TrainModel.CONFIG.max_sequence_length s).length
        = TrainModel.CONFIG.max_sequence_length)
    ∧ (∀ s : List Nat, TrainModel.CONFIG.max_sequence_length ≤ s.length →
      Keras.pad_one TrainModel.CONFIG.max_sequence_length s
        = s.take TrainModel.CONFIG.max_sequence_length)
    ∧ (∀ s : List Nat, s.length ≤ TrainModel.CONFIG.max_sequence_length →
      Keras.pad_one TrainModel.CONFIG.max_sequence_length s
        = s ++ List.replicate (TrainModel.CONFIG.max_sequence_length - s.length) 0)
    ∧ (∀ texts intents : List String, ∀ row ∈ (TrainModel.preprocess_data texts intents).X,
      row.length = TrainModel.CONFIG.max_sequence_length) := by
  refine ⟨fun s => Keras.pad_one_length _ s,
          fun s h => Keras.pad_one_of_long h,
          fun s h => Keras.pad_one_of_short h, ?_⟩
  intro texts intents row hrow
  simp only [TrainModel.preprocess_data, Keras.pad_sequences, List.mem_map] at hrow
  obtain ⟨s, _, rfl⟩ := hrow
  exact Keras.pad_one_length _ s

/-- Witness for C4 at concrete inputs: a length-40 sequence is cut to its
first 32 entries and a length-2 sequence is padded with 30 zeros. -/
theorem C4_padded_length_exact_witness :
    (Keras.pad_one TrainModel.CONFIG.max_sequence_length (List.replicate 40 7)).length
        = TrainModel.CONFIG.max_sequence_length
    ∧ Keras.pad_one TrainModel.CONFIG.max_sequence_length (List.replicate 40 7)
        = (List.replicate 40 7).take TrainModel.CONFIG.max_sequence_length
    ∧ Keras.pad_one TrainModel.CONFIG.max_sequence_length [5, 9]
        = [5, 9] ++ List.replicate (TrainModel.CONFIG.max_sequence_length - 2) 0 :=
  ⟨C4_padded_length_exact.1 (List.replicate 40 7),
   C4_padded_length_exact.2.1 (List.replicate 40 7) (by decide),
   C4_padded_length_exact.2.2.1 [5, 9] (by decide)⟩

/-- C2 counterexample: run training with `model.fit` raising. The script's
trace stops at the `fit` event: the tokenizer file was not written before
the training loop (it is written only after `model.fit` returns, lines
263-275 of `train_model.py`), so neither persisted file exists when
training fails, contrary to the claim. -/
theorem C2_counterexample :
    (TrainModel.train_model { fit_outcome := Except.error "boom" }).1
      = [TrainModel.TrainEvent.makedirs "models", TrainModel.TrainEvent.fit]
    ∧ TrainModel.TrainEvent.writeFile TrainModel.CONFIG.tokenizer_save_path
        (TrainModel.TrainFileData.tokenizerJson
          (TrainModel.preprocess_data TrainModel.load_data.texts TrainModel.load_data.intents).tokenizer)
        ∉ (TrainModel.train_model { fit_outcome := Except.error "boom" }).1
    ∧ TrainModel.TrainEvent.writeFile TrainModel.CONFIG.label_encoder_save_path
        (TrainModel.TrainFileData.labelEncoderJson
          (TrainModel.preprocess_data TrainModel.load_data.texts TrainModel.load_data.intents).classes)
        ∉ (TrainModel.train_model { fit_outcome := Except.error "boom" }).1 := by
  have h : (TrainModel.train_model { fit_outcome := Except.error "boom" }).1
      = [TrainModel.TrainEvent.makedirs "models", TrainModel.TrainEvent.fit] := rfl
  refine ⟨h, ?_, ?_⟩ <;> rw [h] <;> simp

/-- C2 amended: the fitted tokenizer and the label-encoder classes are
persisted only after the training loop (`model.fit`) completes
successfully, in the order fit, tokenizer, label encoder; when `model.fit`
raises, the exception propagates and neither file is written in that run. -/
theorem C2_artifacts_saved_only_after_fit (env : TrainModel.TrainEnv) :
    (∀ u : Unit, env.fit_outcome = Except.ok u →
      (TrainModel.train_model env).1.get? 1 = some TrainModel.TrainEvent.fit
      ∧ (TrainModel.train_model env).1.get? 2
          = some (TrainModel.TrainEvent.writeFile TrainModel.CONFIG.tokenizer_save_path
              (TrainModel.TrainFileData.tokenizerJson
                (TrainModel.preprocess_data TrainModel.load_data.texts TrainModel.load_data.intents).tokenizer))
      ∧ (TrainModel.train_model env).1.get? 3
          = some (TrainModel.TrainEvent.writeFile TrainModel.CONFIG.label_encoder_save_path
              (TrainModel.TrainFileData.labelEncoderJson
                (TrainModel.preprocess_data TrainModel.load_data.texts TrainModel.load_data.intents).classes))
      ∧ (TrainModel.train_model env).2 = Except.ok ())
    ∧ (∀ e, env.fit_outcome = Except.error e →
      (TrainModel.train_model env).1
        = [TrainModel.TrainEvent.makedirs "models", TrainModel.TrainEvent.fit]
      ∧ (TrainModel.train_model env).2 = Except.error e) := by
  obtain ⟨fo⟩ := env
  cases fo with
  | ok u =>
    refine ⟨fun v h => ?_, fun e h => Except.noConfusion h⟩
    exact ⟨rfl, rfl, rfl, rfl⟩
  | error e =>
    refine ⟨fun v h => Except.noConfusion h, fun e2 h => ?_⟩
    cases h
    exact ⟨rfl, rfl⟩

/-- Witness for C2's amended theorem at the two concrete fit outcomes. -/
theorem C2_artifacts_saved_only_after_fit_witness :
    ((TrainModel.train_model { fit_outcome := Except.ok () }).1.get? 1
        = some TrainModel.TrainEvent.fit
      ∧ (TrainModel.train_model { fit_outcome := Except.ok () }).2 = Except.ok ())
    ∧ (TrainModel.train_model { fit_outcome := Except.error "oom" }).1
        = [TrainModel.TrainEvent.makedirs "models", TrainModel.TrainEvent.fit] :=
  ⟨⟨((C2_artifacts_saved_only_after_fit { fit_outcome := Except.ok () }).1 () rfl).1,
    ((C2_artifacts_saved_only_after_fit { fit_outcome := Except.ok () }).1 () rfl).2.2.2⟩,
   ((C2_artifacts_saved_only_after_fit { fit_outcome := Except.error "oom" }).2 "oom" rfl).1⟩

/-- C6: when the trained-model file is absent, `load_model` raises right
after the assets directory is created; the export aborts with an error and
its trace holds no `writeFile` event at all, so the metadata file at
`assets/model_metadata.json` is never touched (it keeps whatever complete
state it had, and is never left half-written). -/
theorem C6_missing_model_aborts_before_any_write (env : ExportTflite.ExportEnv)
    (h : env.model_file = none) :
    (ExportTflite.export_tflite_model env).1
      = [ExportTflite.Event.makedirs "assets",
         ExportTflite.Event.loadModel ExportTflite.CONFIG.model_path]
    ∧ (ExportTflite.export_tflite_model env).2
      = Except.error ExportTflite.ExportError.modelNotFound
    ∧ ∀ p d, ExportTflite.Event.writeFile p d ∉ (ExportTflite.export_tflite_model env).1 := by
  obtain ⟨mf, tf, lf, fc, ic, dc⟩ := env
  cases mf with
  | none =>
    refine ⟨rfl, rfl, ?_⟩
    intro p d hmem
    rw [show (ExportTflite.export_tflite_model
        { model_file := none, tokenizer_file := tf, label_encoder_file := lf,
          float_convert := fc, int_quant_convert := ic, dynamic_convert := dc }).1
      = [ExportTflite.Event.makedirs "assets",
         ExportTflite.Event.loadModel ExportTflite.CONFIG.model_path] from rfl] at hmem
    simp at hmem
  | some u => exact Option.noConfusion h

/-- Witness for C6: a concrete environment with no model file. -/
theorem C6_missing_model_aborts_before_any_write_witness :
    (ExportTflite.export_tflite_model
        { model_file := none, tokenizer_file := none, label_encoder_file := none,
          float_convert := Except.error "no model", int_quant_convert := Except.error "no model",
          dynamic_convert := Except.error "no model" }).1
      = [ExportTflite.Event.makedirs "assets",
         ExportTflite.Event.loadModel ExportTflite.CONFIG.model_path]
    ∧ (ExportTflite.export_tflite_model
        { model_file := none, tokenizer_file := none, label_encoder_file := none,
          float_convert := Except.error "no model", int_quant_convert := Except.error "no model",
          dynamic_convert := Except.error "no model" }).2
      = Except.error ExportTflite.ExportError.modelNotFound :=
  ⟨(C6_missing_model_aborts_before_any_write _ rfl).1,
   (C6_missing_model_aborts_before_any_write _ rfl).2.1⟩

/-- C1: when the integer-only quantized conversion raises, the exception is
caught, the dynamic-range fallback conversion is attempted, its result is
written to the quantized-artifact path, and the export run still finishes
with success. -/
theorem C1_quantization_failure_falls_back (env : ExportTflite.ExportEnv)
    (tk : Keras.Tokenizer) (cls : List String) (fb dm : List Nat) (e : String)
    (h1 : env.model_file = some ())
    (h2 : env.tokenizer_file = some tk)
    (h3 : env.label_encoder_file = some cls)
    (h4 : env.float_convert = Except.ok fb)
    (h5 : env.int_quant_convert = Except.error e)
    (h6 : env.dynamic_convert = Except.ok dm) :
    (ExportTflite.export_tflite_model env).2 = Except.ok ()
    ∧ ExportTflite.Event.convertDynamic ExportTflite.converter_dynamic_args
        ∈ (ExportTflite.export_tflite_model env).1
    ∧ ExportTflite.Event.writeFile ExportTflite.CONFIG.tflite_quantized_path
        (ExportTflite.FileData.bytes dm) ∈ (ExportTflite.export_tflite_model env).1 := by
  obtain ⟨mf, tf, lf, fc, ic, dc⟩ := env
  simp only at h1 h2 h3 h4 h5 h6
  subst h1 h2 h3 h4 h5 h6
  refine ⟨rfl, ?_, ?_⟩ <;> simp [ExportTflite.export_tflite_model]

/-- Witness for C1: a concrete export environment in which the integer
quantization raises and the fallback conversion succeeds. -/
theorem C1_quantization_failure_falls_back_witness :
    (ExportTflite.export_tflite_model
        { model_file := some (), tokenizer_file := some
            { num_words := some 10000, oov_token := "<OOV>", word_index := [("<OOV>", 1)] },
          label_encoder_file := some ["time", "weather"],
          float_convert := Except.ok [1, 2, 3],
          int_quant_convert := Except.error "int8 range calibration failed",
          dynamic_convert := Except.ok [4, 5] }).2 = Except.ok ()
    ∧ ExportTflite.Event.writeFile ExportTflite.CONFIG.tflite_quantized_path
        (ExportTflite.FileData.bytes [4, 5])
        ∈ (ExportTflite.export_tflite_model
        { model_file := some (), tokenizer_file := some
            { num_words := some 10000, oov_token := "<OOV>", word_index := [("<OOV>", 1)] },
          label_encoder_file := some ["time", "weather"],
          float_convert := Except.ok [1, 2, 3],
          int_quant_convert := Except.error "int8 range calibration failed",
          dynamic_convert := Except.ok [4, 5] }).1 :=
  ⟨(C1_quantization_failure_falls_back _ _ _ _ _ _ rfl rfl rfl rfl rfl rfl).1,
   (C1_quantization_failure_falls_back _ _ _ _ _ _ rfl rfl rfl rfl rfl rfl).2.2⟩

/-- C9: in every export run that reaches a successful float32 conversion,
the full-precision artifact is written to `assets/model.tflite` (trace
position 5) strictly before the integer-quantized conversion is attempted
(trace position 6), whatever the quantization outcomes; and even when both
the integer quantization and the fallback conversion raise, the run aborts
with the full-precision artifact already written. -/
theorem C9_float_artifact_written_before_quantization (env : ExportTflite.ExportEnv)
    (tk : Keras.Tokenizer) (cls : List String) (fb : List Nat)
    (h1 : env.model_file = some ())
    (h2 : env.tokenizer_file = some tk)
    (h3 : env.label_encoder_file = some cls)
    (h4 : env.float_convert = Except.ok fb) :
    (∃ i j, i < j
      ∧ (ExportTflite.export_tflite_model env).1.get? i
          = some (ExportTflite.Event.writeFile ExportTflite.CONFIG.tflite_model_path
              (ExportTflite.FileData.bytes fb))
      ∧ (ExportTflite.export_tflite_model env).1.get? j
          = some (ExportTflite.Event.convertIntQuant ExportTflite.converter_quantized_args))
    ∧ (∀ e1 e2, env.int_quant_convert = Except.error e1 → env.dynamic_convert = Except.error e2 →
        (ExportTflite.export_tflite_model env).2
          = Except.error (ExportTflite.ExportError.conversionFailed e2)
        ∧ ExportTflite.Event.writeFile ExportTflite.CONFIG.tflite_model_path
            (ExportTflite.FileData.bytes fb) ∈ (ExportTflite.export_tflite_model env).1) := by
  obtain ⟨mf, tf, lf, fc, ic, dc⟩ := env
  simp only at h1 h2 h3 h4
  subst h1 h2 h3 h4
  constructor
  · refine ⟨5, 6, by omega, ?_, ?_⟩ <;>
      cases ic <;> cases dc <;> simp [ExportTflite.export_tflite_model]
  · intro e1 e2 he1 he2
    simp only at he1 he2
    subst he1 he2
    exact ⟨rfl, by simp [ExportTflite.export_tflite_model]⟩

/-- Witness for C9: a concrete environment in which both quantized
conversions raise; the float32 artifact write is at position 5, before
the quantization attempt at position 6, and the run aborts. -/
theorem C9_float_artifact_written_before_quantization_witness :
    (∃ i j, i < j
      ∧ (ExportTflite.export_tflite_model
          { model_file := some (), tokenizer_file := some
              { num_words := some 10000, oov_token := "<OOV>", word_index := [("<OOV>", 1)] },
            label_encoder_file := some ["time", "weather"],
            float_convert := Except.ok [9, 9],
            int_quant_convert := Except.error "quant failed",
            dynamic_convert := Except.error "dynamic failed" }).1.get? i
          = some (ExportTflite.Event.writeFile ExportTflite.CONFIG.tflite_model_path
              (ExportTflite.FileData.bytes [9, 9]))
      ∧ (ExportTflite.export_tflite_model
          { model_file := some (), tokenizer_file := some
              { num_words := some 10000, oov_token := "<OOV>", word_index := [("<OOV>", 1)] },
            label_encoder_file := some ["time", "weather"],
            float_convert := Except.ok [9, 9],
            int_quant_convert := Except.error "quant failed",
            dynamic_convert := Except.error "dynamic failed" }).1.get? j
          = some (ExportTflite.Event.convertIntQuant ExportTflite.converter_quantized_args))
    ∧ (ExportTflite.export_tflite_model
          { model_file := some (), tokenizer_file := some
              { num_words := some 10000, oov_token := "<OOV>", word_index := [("<OOV>", 1)] },
            label_encoder_file := some ["time", "weather"],
            float_convert := Except.ok [9, 9],
            int_quant_convert := Except.error "quant failed",
            dynamic_convert := Except.error "dynamic failed" }).2
        = Except.error (ExportTflite.ExportError.conversionFailed "dynamic failed") :=
  ⟨(C9_float_artifact_written_before_quantization _ _ _ _ rfl rfl rfl rfl).1,
   ((C9_float_artifact_written_before_quantization _ _ _ _ rfl rfl rfl rfl).2
      "quant failed" "dynamic failed" rfl rfl).1⟩

namespace ExportTflite

theorem mem_test_inference_setInput {path : String} {tk : Keras.Tokenizer} {text : String}
    (h : text ∈ test_texts) :
    Event.setInputTensor path
      (Keras.pad_sequences (tk.texts_to_sequences [text]) CONFIG.max_sequence_length)
      Dtype.float32 ∈ test_inference path tk := by
  simp only [test_inference, List.mem_flatMap]
  exact ⟨text, h, by simp⟩

theorem test_inference_dtype {path p : String} {tk : Keras.Tokenizer}
    {d : List (List Nat)} {dt : Dtype}
    (h : Event.setInputTensor p d dt ∈ test_inference path tk) : dt = Dtype.float32 := by
  simp only [test_inference, List.mem_flatMap] at h
  obtain ⟨t, _, hev⟩ := h
  simp only [List.mem_cons, List.not_mem_nil, or_false] at hev
  rcases hev with hev | hev
  · exact (Event.setInputTensor.injEq _ _ _ _ _ _).mp hev |>.2.2
  · exact absurd hev (by simp)

end ExportTflite

/-- C8: the validator always feeds the interpreter a float32-cast padded
sequence. Concretely: the integer-quantized conversion declares int8 input
and output tensor types, yet for every test sentence `test_inference` sets
the input tensor of both exported artifacts (full-precision and quantized)
as the padded token-id sequence cast to float32, and no input tensor is
ever set with any other element type. -/
theorem C8_validator_casts_to_float32 (env : ExportTflite.ExportEnv)
    (tk : Keras.Tokenizer) (cls : List String) (fb qm : List Nat)
    (h1 : env.model_file = some ())
    (h2 : env.tokenizer_file = some tk)
    (h3 : env.label_encoder_file = some cls)
    (h4 : env.float_convert = Except.ok fb)
    (h5 : env.int_quant_convert = Except.ok qm) :
    ExportTflite.converter_quantized_args.inference_input_type = some ExportTflite.Dtype.int8
    ∧ ExportTflite.converter_quantized_args.inference_output_type = some ExportTflite.Dtype.int8
    ∧ (∀ text ∈ ExportTflite.test_texts,
        ExportTflite.Event.setInputTensor ExportTflite.CONFIG.tflite_model_path
          (Keras.pad_sequences (tk.texts_to_sequences [text])
            ExportTflite.CONFIG.max_sequence_length) ExportTflite.Dtype.float32
          ∈ (ExportTflite.export_tflite_model env).1
        ∧ ExportTflite.Event.setInputTensor ExportTflite.CONFIG.tflite_quantized_path
          (Keras.pad_sequences (tk.texts_to_sequences [text])
            ExportTflite.CONFIG.max_sequence_length) ExportTflite.Dtype.float32
          ∈ (ExportTflite.export_tflite_model env).1)
    ∧ (∀ (p : String) (d : List (List Nat)) (dt : ExportTflite.Dtype),
        ExportTflite.Event.setInputTensor p d dt ∈ (ExportTflite.export_tflite_model env).1 →
        dt = ExportTflite.Dtype.float32) := by
  obtain ⟨mf, tf, lf, fc, ic, dc⟩ := env
  simp only at h1 h2 h3 h4 h5
  subst h1 h2 h3 h4 h5
  refine ⟨rfl, rfl, ?_, ?_⟩
  · intro text ht
    have hm1 := @ExportTflite.mem_test_inference_setInput
      ExportTflite.CONFIG.tflite_model_path tk text ht
    have hm2 := @ExportTflite.mem_test_inference_setInput
      ExportTflite.CONFIG.tflite_quantized_path tk text ht
    constructor <;>
      · simp only [ExportTflite.export_tflite_model, List.append_assoc, List.cons_append,
          List.nil_append, List.mem_cons, List.mem_append]
        tauto
  · intro p d dt hmem
    simp only [ExportTflite.export_tflite_model, List.append_assoc, List.cons_append,
      List.nil_append, List.mem_cons, List.mem_append] at hmem
    simp only [reduceCtorEq, false_or] at hmem
    rcases hmem with h | h <;> exact ExportTflite.test_inference_dtype h

/-- Witness for C8 at a concrete environment and the concrete test
sentence "What time is it?". -/
theorem C8_validator_casts_to_float32_witness :
    ExportTflite.converter_quantized_args.inference_input_type = some ExportTflite.Dtype.int8
    ∧ ExportTflite.Event.setInputTensor ExportTflite.CONFIG.tflite_quantized_path
        (Keras.pad_sequences
          (Keras.Tokenizer.texts_to_sequences
            { num_words := some 10000, oov_token := "<OOV>", word_index := [("<OOV>", 1)] }
            ["What time is it?"])
          ExportTflite.CONFIG.max_sequence_length) ExportTflite.Dtype.float32
        ∈ (ExportTflite.export_tflite_model
          { model_file := some (), tokenizer_file := some
              { num_words := some 10000, oov_token := "<OOV>", word_index := [("<OOV>", 1)] },
            label_encoder_file := some ["time", "weather"],
            float_convert := Except.ok [1], int_quant_convert := Except.ok [2],
            dynamic_convert := Except.ok [3] }).1 := by
  have h := C8_validator_casts_to_float32
    { model_file := some (), tokenizer_file := some
        { num_words := some 10000, oov_token := "<OOV>", word_index := [("<OOV>", 1)] },
      label_encoder_file := some ["time", "weather"],
      float_convert := Except.ok [1], int_quant_convert := Except.ok [2],
      dynamic_convert := Except.ok [3] }
    { num_words := some 10000, oov_token := "<OOV>", word_index := [("<OOV>", 1)] }
    ["time", "weather"] [1] [2] rfl rfl rfl rfl rfl
  exact ⟨h.1, (h.2.2.1 "What time is it?" (by simp [ExportTflite.test_texts])).2⟩

namespace Sklearn

theorem label_index_get {classes : List String} {l : String} (h : l ∈ classes) :
    classes[label_index classes l]? = some l := by
  induction classes with
  | nil => cases h
  | cons c cs ih =>
    simp only [label_index]
    by_cases hc : c = l
    · simp [hc]
    · have h2 : l ∈ cs := by
        rcases List.mem_cons.mp h with h1 | h1
        · exact absurd h1.symm hc
        · exact h1
      simp [hc, ih h2]

theorem mem_label_encoder_fit {labels : List String} {l : String} (h : l ∈ labels) :
    l ∈ label_encoder_fit labels := by
  simp [label_encoder_fit, List.mem_insertionSort, List.mem_dedup, h]

end Sklearn

/-- C5: for every intent label occurring in the training set, indexing the
fitted (and persisted) classes list with the integer the label encoder
assigns to the label yields the label back. The `classes` component of
`preprocess_data` is exactly the list `train_model` persists to
`models/label_encoder.json` (the `labelEncoderJson` payload). -/
theorem C5_label_round_trip (texts intents : List String) (L : String) (h : L ∈ intents) :
    (TrainModel.preprocess_data texts intents).classes[Sklearn.label_index
      (TrainModel.preprocess_data texts intents).classes L]? = some L := by
  have hc : (TrainModel.preprocess_data texts intents).classes
      = Sklearn.label_encoder_fit intents := rfl
  rw [hc]
  exact Sklearn.label_index_get (Sklearn.mem_label_encoder_fit h)

/-- Witness for C5 at the actual training set and the label "weather". -/
theorem C5_label_round_trip_witness :
    "weather" ∈ TrainModel.load_data.intents
    ∧ (TrainModel.preprocess_data TrainModel.load_data.texts
          TrainModel.load_data.intents).classes[Sklearn.label_index
        (TrainModel.preprocess_data TrainModel.load_data.texts
          TrainModel.load_data.intents).classes "weather"]? = some "weather" :=
  ⟨by decide,
   C5_label_round_trip TrainModel.load_data.texts TrainModel.load_data.intents "weather" (by decide)⟩

namespace Keras

/-- The token column of the counts dict. -/
def keys (counts : List (String × Nat)) : List String := counts.map Prod.fst

/-- The token stream of a whole corpus, in reading order. -/
def corpus_tokens (texts : List String) : List String :=
  texts.flatMap text_to_word_sequence

@[simp] theorem keys_nil : keys [] = [] := rfl

@[simp] theorem keys_cons (p : String × Nat) (l : List (String × Nat)) :
    keys (p :: l) = p.1 :: keys l := rfl

theorem keys_bump_of_mem {counts : List (String × Nat)} {w : String}
    (h : w ∈ keys counts) : keys (bump counts w) = keys counts := by
  induction counts with
  | nil => cases h
  | cons p rest ih =>
    obtain ⟨t, c⟩ := p
    by_cases ht : t = w
    · simp [bump, ht]
    · have h2 : w ∈ keys rest := by
        rcases List.mem_cons.mp h with h1 | h1
        · exact absurd h1.symm ht
        · exact h1
      simp only [bump, if_neg ht, keys_cons]
      rw [ih h2]

theorem keys_bump_of_not_mem {counts : List (String × Nat)} {w : String}
    (h : w ∉ keys counts) : keys (bump counts w) = keys counts ++ [w] := by
  induction counts with
  | nil => simp [bump]
  | cons p rest ih =>
    obtain ⟨t, c⟩ := p
    have ht : t ≠ w := fun he => h (List.mem_cons.mpr (Or.inl he.symm))
    have h2 : w ∉ keys rest := fun hm => h (List.mem_cons.mpr (Or.inr hm))
    simp only [bump, if_neg ht, keys_cons, List.cons_append]
    rw [ih h2]

theorem mem_keys_foldl_bump (ts : List String) :
    ∀ (init : List (String × Nat)) (x : String),
      x ∈ keys (ts.foldl bump init) ↔ x ∈ keys init ∨ x ∈ ts := by
  induction ts with
  | nil => intro init x; simp
  | cons t rest ih =>
    intro init x
    rw [List.foldl_cons, ih]
    by_cases h : t ∈ keys init
    · rw [keys_bump_of_mem h]
      simp only [List.mem_cons]
      constructor
      · rintro (hx | hx)
        · exact Or.inl hx
        · exact Or.inr (Or.inr hx)
      · rintro (hx | hx | hx)
        · exact Or.inl hx
        · exact Or.inl (hx ▸ h)
        · exact Or.inr hx
    · rw [keys_bump_of_not_mem h]
      simp only [List.mem_append, List.mem_singleton, List.mem_cons]
      tauto

theorem nodup_keys_foldl_bump (ts : List String) :
    ∀ init : List (String × Nat), (keys init).Nodup → (keys (ts.foldl bump init)).Nodup := by
  induction ts with
  | nil => intro init h; exact h
  | cons t rest ih =>
    intro init h
    rw [List.foldl_cons]
    apply ih
    by_cases hm : t ∈ keys init
    · rw [keys_bump_of_mem hm]; exact h
    · rw [keys_bump_of_not_mem hm]
      exact List.nodup_append.mpr ⟨h, List.nodup_singleton t, List.disjoint_singleton.mpr hm⟩

theorem length_keys_foldl_bump (ts : List String) :
    (keys (ts.foldl bump [])).length = ts.dedup.length := by
  have h1 : (keys (ts.foldl bump [])).Nodup := nodup_keys_foldl_bump ts [] (by simp [keys])
  have h2 : ts.dedup.Nodup := List.nodup_dedup ts
  have h3 : ∀ x, x ∈ keys (ts.foldl bump []) ↔ x ∈ ts.dedup := by
    intro x
    rw [mem_keys_foldl_bump, List.mem_dedup]
    simp [keys]
  exact ((List.perm_ext_iff_of_nodup h1 h2).mpr h3).length_eq

theorem word_counts_eq_foldl_tokens (texts : List String) :
    word_counts texts = (corpus_tokens texts).foldl bump [] := by
  suffices h : ∀ init : List (String × Nat),
      texts.foldl (fun counts text => (text_to_word_sequence text).foldl bump counts) init
        = (corpus_tokens texts).foldl bump init from h []
  induction texts with
  | nil => intro init; rfl
  | cons t rest ih =>
    intro init
    simp only [List.foldl_cons, corpus_tokens, List.flatMap_cons, List.foldl_append]
    exact ih _

theorem word_counts_length (texts : List String) :
    (word_counts texts).length = (corpus_tokens texts).dedup.length := by
  rw [word_counts_eq_foldl_tokens]
  have h := length_keys_foldl_bump (corpus_tokens texts)
  rwa [keys, List.length_map] at h

/-- Size of the fitted `word_index`: one entry per distinct corpus token
plus one for the OOV token, independently of `num_words`. -/
theorem fit_word_index_length (tk : Tokenizer) (texts : List String) :
    (fit_on_texts tk texts).word_index.length = (corpus_tokens texts).dedup.length + 1 := by
  simp only [fit_on_texts, List.length_zip, List.length_range', List.length_cons,
    List.length_map, List.length_insertionSort, word_counts_length]
  omega

end Keras

namespace Keras

theorem map_eq_self_of {f : Char → Char} :
    ∀ {m : List Char}, (∀ c ∈ m, f c = c) → m.map f = m
  | [], _ => rfl
  | a :: as, h => by
    rw [List.map_cons, h a (List.mem_cons_self a as),
      map_eq_self_of (fun c hc => h c (List.mem_cons_of_mem a hc))]

theorem splitOnSpace_no_space {l : List Char} (h : ∀ c ∈ l, c ≠ ' ') :
    splitOnSpace l = [l] := by
  induction l with
  | nil => rfl
  | cons c cs ih =>
    have hc : c ≠ ' ' := h c (List.mem_cons_self c cs)
    have hrest : splitOnSpace cs = [cs] := ih (fun x hx => h x (List.mem_cons_of_mem c hx))
    simp [splitOnSpace, hc, hrest]

/-- A nonempty text whose characters are already lower-case, are not filter
characters and are not spaces tokenizes to itself alone. -/
theorem text_to_word_sequence_single {l : List Char} (hne : l ≠ [])
    (hlow : ∀ c ∈ l, Char.toLower c = c)
    (hfil : ∀ c ∈ l, is_filter_char c = false)
    (hsp : ∀ c ∈ l, c ≠ ' ') :
    text_to_word_sequence (String.mk l) = [String.mk l] := by
  have hmk : String.mk l ≠ "" := fun he => hne (congrArg String.data he)
  simp only [text_to_word_sequence]
  rw [map_eq_self_of hlow,
    map_eq_self_of (fun c hc => by simp [hfil c hc]), splitOnSpace_no_space hsp]
  simp [hmk]

/-- A corpus of 10000 pairwise-distinct single-token texts. -/
def bigText (i : Nat) : String := String.mk (List.replicate (i + 1) 'a')

def bigCorpus : List String := (List.range 10000).map bigText

def bigIntents : List String := List.replicate 10000 "wide"

theorem text_to_word_sequence_bigText (i : Nat) :
    text_to_word_sequence (bigText i) = [bigText i] := by
  apply text_to_word_sequence_single
  · simp
  · intro c hc; obtain ⟨-, rfl⟩ := List.mem_replicate.mp hc; decide
  · intro c hc; obtain ⟨-, rfl⟩ := List.mem_replicate.mp hc; decide
  · intro c hc; obtain ⟨-, rfl⟩ := List.mem_replicate.mp hc; decide

theorem bigText_injective : Function.Injective bigText := by
  intro i j h
  have h2 : List.replicate (i + 1) 'a' = List.replicate (j + 1) 'a' := congrArg String.data h
  have h3 := congrArg List.length h2
  simp only [List.length_replicate] at h3
  omega

theorem flatMap_eq_self_of {f : String → List String} :
    ∀ {l : List String}, (∀ x ∈ l, f x = [x]) → l.flatMap f = l
  | [], _ => rfl
  | a :: as, h => by
    rw [List.flatMap_cons, h a (List.mem_cons_self a as),
      flatMap_eq_self_of (fun x hx => h x (List.mem_cons_of_mem a hx))]
    rfl

theorem corpus_tokens_bigCorpus : corpus_tokens bigCorpus = bigCorpus := by
  apply flatMap_eq_self_of
  intro x hx
  obtain ⟨i, -, rfl⟩ := List.mem_map.mp hx
  exact text_to_word_sequence_bigText i

theorem bigCorpus_nodup : bigCorpus.Nodup :=
  List.Nodup.map bigText_injective (List.nodup_range 10000)

theorem bigCorpus_length : bigCorpus.length = 10000 := by
  simp [bigCorpus]

end Keras

namespace Keras

/-- The OOV token stands first in the fitted `word_index` with id 1. -/
theorem lookup_index_fit_oov (tk : Tokenizer) (texts : List String) :
    lookup_index (fit_on_texts tk texts).word_index tk.oov_token = some 1 := by
  have h : (fit_on_texts tk texts).word_index
      = (tk.oov_token, 1) ::
        (((word_counts texts).insertionSort (fun a b => b.2 ≤ a.2)).map Prod.fst).zip
          (List.range' 2
            (((word_counts texts).insertionSort (fun a b => b.2 ≤ a.2)).map Prod.fst).length) := rfl
  rw [h]
  simp [lookup_index]

/-- Every id a fitted tokenizer emits during sequence conversion is below
`num_words` (for `num_words ≥ 2`): ids at or above the cap, and unknown
tokens, are replaced by the OOV id 1. -/
theorem texts_to_sequences_id_lt (tk0 : Tokenizer) (texts ts : List String) (n : Nat)
    (hn : tk0.num_words = some n) (h2 : 2 ≤ n) :
    ∀ seq ∈ (fit_on_texts tk0 texts).texts_to_sequences ts, ∀ id ∈ seq, id < n := by
  intro seq hseq id hid
  have hnw : (fit_on_texts tk0 texts).num_words = some n := by
    simp [fit_on_texts, hn]
  have hoovtok : (fit_on_texts tk0 texts).oov_token = tk0.oov_token := by
    simp [fit_on_texts]
  have hoov : lookup_index (fit_on_texts tk0 texts).word_index
      (fit_on_texts tk0 texts).oov_token = some 1 := by
    rw [hoovtok]; exact lookup_index_fit_oov tk0 texts
  simp only [Tokenizer.texts_to_sequences, List.mem_map] at hseq
  obtain ⟨text, -, rfl⟩ := hseq
  simp only [hnw, hoov] at hid
  revert hid
  generalize text_to_word_sequence text = toks
  induction toks with
  | nil => intro h; cases h
  | cons w ws ih =>
    intro hid
    rw [List.foldr_cons] at hid
    rcases hlook : lookup_index (fit_on_texts tk0 texts).word_index w with - | i
    · simp only [hlook] at hid
      rcases List.mem_cons.mp hid with h | h
      · omega
      · exact ih h
    · simp only [hlook] at hid
      by_cases hni : n ≤ i
      · rw [if_pos (show n ≠ 0 ∧ n ≤ i from ⟨by omega, hni⟩)] at hid
        rcases List.mem_cons.mp hid with h | h
        · omega
        · exact ih h
      · rw [if_neg (show ¬ (n ≠ 0 ∧ n ≤ i) by omega)] at hid
        rcases List.mem_cons.mp hid with h | h
        · omega
        · exact ih h

end Keras

/-- C3 counterexample: on a training corpus of 10000 distinct tokens the
fitted vocabulary has 10001 token-to-id entries (one per distinct token
plus the OOV entry), exceeding `max_vocab_size = 10000`: keras
`Tokenizer(num_words=...)` does not cap the fitted `word_index`, so the
claimed bound fails for this corpus. -/
theorem C3_counterexample :
    ¬ (((TrainModel.preprocess_data Keras.bigCorpus Keras.bigIntents).tokenizer.word_index).length
        ≤ TrainModel.CONFIG.max_vocab_size) := by
  have h1 : (TrainModel.preprocess_data Keras.bigCorpus Keras.bigIntents).tokenizer
      = Keras.fit_on_texts
          { num_words := some TrainModel.CONFIG.max_vocab_size, oov_token := "<OOV>",
            word_index := [] } Keras.bigCorpus := rfl
  rw [h1, Keras.fit_word_index_length, Keras.corpus_tokens_bigCorpus,
    List.dedup_eq_self.mpr Keras.bigCorpus_nodup, Keras.bigCorpus_length]
  decide

/-- C3 amended: the fitted vocabulary is not capped: it always has exactly
one token-to-id entry per distinct corpus token plus one for the OOV token
(so `len(word_index) ≤ max_vocab_size` holds only when the corpus has fewer
than `max_vocab_size` distinct tokens); the `max_vocab_size` cap applies
during sequence conversion instead, where every emitted id is strictly
below `max_vocab_size`. -/
theorem C3_vocabulary_uncapped_ids_capped :
    (∀ texts intents : List String,
      ((TrainModel.preprocess_data texts intents).tokenizer.word_index).length
        = (Keras.corpus_tokens texts).dedup.length + 1)
    ∧ (∀ texts intents ts : List String,
        ∀ seq ∈ (TrainModel.preprocess_data texts intents).tokenizer.texts_to_sequences ts,
        ∀ id ∈ seq, id < TrainModel.CONFIG.max_vocab_size) := by
  constructor
  · intro texts intents
    exact Keras.fit_word_index_length _ texts
  · intro texts intents ts seq hseq id hid
    exact Keras.texts_to_sequences_id_lt
      { num_words := some TrainModel.CONFIG.max_vocab_size, oov_token := "<OOV>",
        word_index := [] } texts ts TrainModel.CONFIG.max_vocab_size rfl (by decide)
      seq hseq id hid

/-- Witness for C3's amended theorem on a tiny concrete corpus: the corpus
"hello world hello" yields a vocabulary of 2 distinct tokens plus OOV, and
converting "hello mars" emits ids 2 (hello) and 1 (OOV for the unseen
word), both below the cap. -/
theorem C3_vocabulary_uncapped_ids_capped_witness :
    ((TrainModel.preprocess_data ["hello world hello"] ["greet"]).tokenizer.word_index).length
      = (Keras.corpus_tokens ["hello world hello"]).dedup.length + 1
    ∧ (2 : Nat) < TrainModel.CONFIG.max_vocab_size :=
  ⟨C3_vocabulary_uncapped_ids_capped.1 ["hello world hello"] ["greet"],
   C3_vocabulary_uncapped_ids_capped.2 ["hello world hello"] ["greet"] ["hello mars"]
     [2, 1] (by decide) 2 (by decide)⟩

/-- C10: the metadata records `vocab_size = len(word_index) + 1` with no
cap, while the trained model's embedding input dimension is
`min(len(word_index) + 1, max_vocab_size)`; whenever the corpus holds at
least `max_vocab_size` distinct tokens the two genuinely differ (the
metadata value is strictly larger). -/
theorem C10_metadata_vocab_size_uncapped :
    (∀ (tk : Keras.Tokenizer) (cls : List String),
      (ExportTflite.make_metadata tk cls).vocab_size = tk.word_index.length + 1)
    ∧ (∀ tk : Keras.Tokenizer,
      TrainModel.train_model_vocab_size tk
        = min (tk.word_index.length + 1) TrainModel.CONFIG.max_vocab_size)
    ∧ (∀ (texts intents cls : List String),
        TrainModel.CONFIG.max_vocab_size ≤ ((Keras.corpus_tokens texts).dedup).length →
        TrainModel.train_model_vocab_size (TrainModel.preprocess_data texts intents).tokenizer
          < (ExportTflite.make_metadata
              (TrainModel.preprocess_data texts intents).tokenizer cls).vocab_size) := by
  refine ⟨fun tk cls => rfl, fun tk => rfl, ?_⟩
  intro texts intents cls h
  have hlen : ((TrainModel.preprocess_data texts intents).tokenizer.word_index).length
      = (Keras.corpus_tokens texts).dedup.length + 1 :=
    Keras.fit_word_index_length _ texts
  show min (((TrainModel.preprocess_data texts intents).tokenizer.word_index).length + 1)
      TrainModel.CONFIG.max_vocab_size
    < ((TrainModel.preprocess_data texts intents).tokenizer.word_index).length + 1
  rw [hlen]
  omega

/-- Witness for C10 at the 10000-distinct-token corpus: the embedding input
size is capped at 10000 while the metadata records 10002. -/
theorem C10_metadata_vocab_size_uncapped_witness :
    TrainModel.CONFIG.max_vocab_size ≤ ((Keras.corpus_tokens Keras.bigCorpus).dedup).length
    ∧ TrainModel.train_model_vocab_size
        (TrainModel.preprocess_data Keras.bigCorpus Keras.bigIntents).tokenizer
      < (ExportTflite.make_metadata
          (TrainModel.preprocess_data Keras.bigCorpus Keras.bigIntents).tokenizer
          ["time"]).vocab_size := by
  have h : TrainModel.CONFIG.max_vocab_size ≤ ((Keras.corpus_tokens Keras.bigCorpus).dedup).length := by
    rw [Keras.corpus_tokens_bigCorpus, List.dedup_eq_self.mpr Keras.bigCorpus_nodup,
      Keras.bigCorpus_length]
    decide
  exact ⟨h, C10_metadata_vocab_size_uncapped.2.2 Keras.bigCorpus Keras.bigIntents ["time"] h⟩

namespace KerasCallbacks

/-- Invariant of the early-stopping loop after the first `k` epochs when no
stop has fired: `best` is the minimum of the first `k` losses, `best_epoch`
the first epoch attaining it (and, when positive, a strict improvement over
the prefix before it), and `wait` counts the epochs since that improvement. -/
def ESInv (losses : List Rat) (k : Nat) (s : ESState) : Prop :=
  s.stopped_epoch = none ∧ 1 ≤ k ∧
  ∃ m : Rat, s.best = some m
    ∧ s.best_epoch < k
    ∧ losses[s.best_epoch]? = some m
    ∧ (∀ i v, i < k → losses[i]? = some v → m ≤ v)
    ∧ s.best_epoch + s.wait + 1 = k
    ∧ s.wait < 10
    ∧ (0 < s.best_epoch →
        ∃ p : Rat, (losses.take s.best_epoch).minimum = (p : WithTop Rat) ∧ m < p)

/-- What the callback guarantees at a stop at epoch `e`: the monitored loss
made no improvement over the 10 epochs ending at `e` (the running minimum
is unchanged between the prefixes of length `e - 9` and `e + 1`), and the
state's best is the minimum of all losses seen up to `e`, attained at
`best_epoch`. -/
def StopConc (losses : List Rat) (e : Nat) (F : ESState) : Prop :=
  10 ≤ e ∧ e < losses.length
  ∧ (losses.take (e + 1)).minimum = (losses.take (e - 9)).minimum
  ∧ ∃ m : Rat, F.best = some m ∧ losses[F.best_epoch]? = some m ∧ F.best_epoch ≤ e
      ∧ ∀ i v, i ≤ e → losses[i]? = some v → m ≤ v

theorem minimum_take_eq {losses : List Rat} {b j : Nat} {m : Rat}
    (hb : losses[b]? = some m) (hbj : b < j)
    (hall : ∀ i v, i < j → losses[i]? = some v → m ≤ v) :
    (losses.take j).minimum = (m : WithTop Rat) := by
  rw [List.minimum_eq_coe_iff]
  constructor
  · have h : (losses.take j)[b]? = some m := by
      rw [List.getElem?_take_of_lt hbj]; exact hb
    obtain ⟨hlt, he⟩ := List.getElem?_eq_some_iff.mp h
    exact he ▸ List.getElem_mem hlt
  · intro a ha
    obtain ⟨i, hi, he⟩ := List.mem_iff_getElem.mp ha
    have hij : i < j := lt_of_lt_of_le hi (by simp [List.length_take])
    have h : losses[i]? = some a := by
      rw [← List.getElem?_take_of_lt hij, List.getElem?_eq_getElem hi, he]
    exact hall i a hij h

theorem minimum_take_le {losses : List Rat} {i j : Nat} {v : Rat} (hij : i < j)
    (hv : losses[i]? = some v) :
    (losses.take j).minimum ≤ (v : WithTop Rat) := by
  apply List.minimum_le_of_mem'
  have h : (losses.take j)[i]? = some v := by
    rw [List.getElem?_take_of_lt hij]; exact hv
  obtain ⟨hlt, he⟩ := List.getElem?_eq_some_iff.mp h
  exact he ▸ List.getElem_mem hlt

theorem minimum_take_anti (losses : List Rat) {a b : Nat} (hab : a ≤ b) :
    (losses.take b).minimum ≤ (losses.take a).minimum := by
  rcases h : (losses.take a).minimum with - | m
  · exact le_top
  · have hm : m ∈ losses.take a := List.minimum_mem h
    have hsub : losses.take a ⊆ losses.take b := by
      intro x hx
      have : x ∈ List.take a (List.take b losses) := by
        rwa [List.take_take, Nat.min_eq_left hab]
      exact List.take_subset a _ this
    exact List.minimum_le_of_mem' (hsub hm)

end KerasCallbacks

namespace KerasCallbacks

theorem es_step_cases {losses : List Rat} {k : Nat} {s : ESState} {c : Rat}
    (hI : ESInv losses k s) (hc : losses[k]? = some c) :
    ((es_epoch_end 10 k c s).stopped_epoch = none
      ∧ ESInv losses (k + 1) (es_epoch_end 10 k c s)
      ∧ (10 ≤ k →
          (losses.take (k + 1)).minimum ≠ (losses.take (k - 9)).minimum))
    ∨ ((es_epoch_end 10 k c s).stopped_epoch = some k
      ∧ StopConc losses k (es_epoch_end 10 k c s)) := by
  obtain ⟨hstop, hk1, m, hbest, hblt, hbval, hmin, hsum, hwait, himp⟩ := hI
  obtain ⟨hklen, -⟩ := List.getElem?_eq_some_iff.mp hc
  by_cases him : c < m
  · -- an improving epoch: new best, wait reset, no stop
    left
    have hstep : es_epoch_end 10 k c s
        = { wait := 0, best := some c, best_epoch := k, stopped_epoch := none } := by
      simp [es_epoch_end, is_improvement, hbest, him]
    have hmink : (losses.take k).minimum = (m : WithTop Rat) :=
      minimum_take_eq hbval hblt hmin
    have hall : ∀ i v, i < k + 1 → losses[i]? = some v → c ≤ v := by
      intro i v hi hv
      rcases Nat.lt_succ_iff_lt_or_eq.mp hi with h | rfl
      · exact le_of_lt (lt_of_lt_of_le him (hmin i v h hv))
      · rw [hc] at hv; cases hv; exact le_rfl
    rw [hstep]
    refine ⟨rfl, ⟨rfl, Nat.le_succ_of_le hk1, c, rfl, Nat.lt_succ_self k, hc, hall,
      rfl, by show (0 : Nat) < 10; decide, fun h0 => ⟨m, hmink, him⟩⟩, ?_⟩
    intro h10
    apply ne_of_lt
    calc (losses.take (k + 1)).minimum
        ≤ (c : WithTop Rat) := minimum_take_le (by omega) hc
      _ < (m : WithTop Rat) := WithTop.coe_lt_coe.mpr him
      _ = (losses.take k).minimum := hmink.symm
      _ ≤ (losses.take (k - 9)).minimum := minimum_take_anti losses (by omega)
  · -- no improvement
    have hmc : m ≤ c := not_lt.mp him
    have hall : ∀ i v, i < k + 1 → losses[i]? = some v → m ≤ v := by
      intro i v hi hv
      rcases Nat.lt_succ_iff_lt_or_eq.mp hi with h | rfl
      · exact hmin i v h hv
      · rw [hc] at hv; cases hv; exact hmc
    by_cases hw : 10 ≤ s.wait + 1
    · -- the wait counter reaches the patience: stop at epoch k
      right
      have hstep : es_epoch_end 10 k c s
          = { wait := s.wait + 1, best := s.best, best_epoch := s.best_epoch,
              stopped_epoch := some k } := by
        simp [es_epoch_end, is_improvement, hbest, him, hw, show 0 < k by omega]
      have e1 : (losses.take (k + 1)).minimum = (m : WithTop Rat) :=
        minimum_take_eq hbval (by omega) hall
      have e2 : (losses.take (k - 9)).minimum = (m : WithTop Rat) :=
        minimum_take_eq hbval (by omega) (fun i v hi hv => hmin i v (by omega) hv)
      rw [hstep]
      exact ⟨rfl, by omega, hklen, e1.trans e2.symm,
        m, hbest, hbval, le_of_lt hblt, fun i v hi hv => hall i v (by omega) hv⟩
    · -- still waiting: continue
      left
      have hstep : es_epoch_end 10 k c s
          = { wait := s.wait + 1, best := s.best, best_epoch := s.best_epoch,
              stopped_epoch := none } := by
        simp [es_epoch_end, is_improvement, hbest, him, hw]
      rw [hstep]
      refine ⟨rfl, ⟨rfl, Nat.le_succ_of_le hk1, m, hbest, Nat.lt_succ_of_lt hblt, hbval, hall,
        by show s.best_epoch + (s.wait + 1) + 1 = k + 1; omega,
        by show s.wait + 1 < 10; omega, himp⟩, ?_⟩
      intro h10
      have hb1 : k - 9 ≤ s.best_epoch := by omega
      have hb0 : 0 < s.best_epoch := by omega
      obtain ⟨p, hp, hmp⟩ := himp hb0
      apply ne_of_lt
      calc (losses.take (k + 1)).minimum
          ≤ (m : WithTop Rat) := minimum_take_le (by omega) hbval
        _ < (p : WithTop Rat) := WithTop.coe_lt_coe.mpr hmp
        _ = (losses.take s.best_epoch).minimum := hp.symm
        _ ≤ (losses.take (k - 9)).minimum := minimum_take_anti losses hb1

end KerasCallbacks

namespace KerasCallbacks

theorem es_run_spec (losses : List Rat) :
    ∀ (rest : List Rat) (k : Nat) (s : ESState), rest = losses.drop k → ESInv losses k s →
      (∀ e, (es_run_from 10 k s rest).stopped_epoch = some e →
        StopConc losses e (es_run_from 10 k s rest))
      ∧ ((es_run_from 10 k s rest).stopped_epoch = none →
        ∀ e, k ≤ e → 10 ≤ e → e < losses.length →
          (losses.take (e + 1)).minimum ≠ (losses.take (e - 9)).minimum) := by
  intro rest
  induction rest with
  | nil =>
    intro k s hdrop hI
    constructor
    · intro e he
      rw [show es_run_from 10 k s [] = s from rfl] at he
      rw [hI.1] at he
      cases he
    · intro _ e hke h10 helen
      have hlen : losses.length ≤ k := List.drop_eq_nil_iff.mp hdrop.symm
      omega
  | cons c cs ih =>
    intro k s hdrop hI
    have hc : losses[k]? = some c := by
      have h0 : (losses.drop k)[0]? = some c := by rw [← hdrop]; simp
      rwa [List.getElem?_drop, Nat.add_zero] at h0
    have hcs : cs = losses.drop (k + 1) := by
      have h1 : cs = List.drop 1 (losses.drop k) := by rw [← hdrop]; simp
      rw [h1, List.drop_drop]
    have hrun : es_run_from 10 k s (c :: cs)
        = match (es_epoch_end 10 k c s).stopped_epoch with
          | some _ => es_epoch_end 10 k c s
          | none => es_run_from 10 (k + 1) (es_epoch_end 10 k c s) cs := rfl
    rcases es_step_cases hI hc with ⟨hn, hI2, hwin⟩ | ⟨hsome, hconc⟩
    · have hrun2 : es_run_from 10 k s (c :: cs)
          = es_run_from 10 (k + 1) (es_epoch_end 10 k c s) cs := by
        rw [hrun, hn]
      rw [hrun2]
      obtain ⟨ihs, ihn⟩ := ih (k + 1) _ hcs hI2
      refine ⟨ihs, ?_⟩
      intro hnone e hke h10 helen
      rcases Nat.eq_or_lt_of_le hke with rfl | hlt
      · exact hwin h10
      · exact ihn hnone e hlt h10 helen
    · have hrun2 : es_run_from 10 k s (c :: cs) = es_epoch_end 10 k c s := by
        rw [hrun, hsome]
      rw [hrun2]
      constructor
      · intro e he
        rw [hsome] at he
        cases he
        exact hconc
      · intro hnone
        rw [hsome] at hnone
        cases hnone

end KerasCallbacks

/-- C7: with the `EarlyStopping` arguments `train_model` passes
(`monitor='val_loss'`, `patience=10`, `restore_best_weights=True`), the
training loop stops exactly on a 10-epoch run without improvement of the
validation loss, and on stopping the model holds the best-seen weights.
Soundness: if the run stopped at epoch `e`, then `e ≥ 10`, the running
minimum of the validation loss did not change over the 10 epochs ending at
`e`, and the final weights are those of `best_epoch`, the epoch of the
minimal loss seen up to `e`. Completeness: whenever some epoch `e` within
the run sees no improvement for 10 consecutive epochs, the callback does
stop the run. -/
theorem C7_early_stopping_patience_10 (losses : List Rat) :
    (∀ e, (KerasCallbacks.early_stopping
        TrainModel.early_stopping_callback.patience losses).stopped_epoch = some e →
      10 ≤ e ∧ e < losses.length
      ∧ (losses.take (e + 1)).minimum = (losses.take (e - 9)).minimum
      ∧ KerasCallbacks.final_weights
          (KerasCallbacks.early_stopping TrainModel.early_stopping_callback.patience losses)
          losses.length
        = (KerasCallbacks.early_stopping
            TrainModel.early_stopping_callback.patience losses).best_epoch
      ∧ ∃ m : Rat,
          (KerasCallbacks.early_stopping
            TrainModel.early_stopping_callback.patience losses).best = some m
          ∧ losses[(KerasCallbacks.early_stopping
              TrainModel.early_stopping_callback.patience losses).best_epoch]? = some m
          ∧ (KerasCallbacks.early_stopping
              TrainModel.early_stopping_callback.patience losses).best_epoch ≤ e
          ∧ ∀ i v, i ≤ e → losses[i]? = some v → m ≤ v)
    ∧ ((∃ e, 10 ≤ e ∧ e < losses.length
        ∧ (losses.take (e + 1)).minimum = (losses.take (e - 9)).minimum) →
      (KerasCallbacks.early_stopping
        TrainModel.early_stopping_callback.patience losses).stopped_epoch ≠ none) := by
  have hpat : TrainModel.early_stopping_callback.patience = 10 := rfl
  rw [hpat]
  cases losses with
  | nil =>
    constructor
    · intro e he
      rw [show (KerasCallbacks.early_stopping 10 []).stopped_epoch = none from rfl] at he
      cases he
    · rintro ⟨e, h10, hlen, -⟩
      simp only [List.length_nil] at hlen
      omega
  | cons c cs =>
    have hrun : KerasCallbacks.early_stopping 10 (c :: cs)
        = KerasCallbacks.es_run_from 10 1
            { wait := 0, best := some c, best_epoch := 0, stopped_epoch := none } cs := rfl
    have hI : KerasCallbacks.ESInv (c :: cs) 1
        { wait := 0, best := some c, best_epoch := 0, stopped_epoch := none } := by
      refine ⟨rfl, le_rfl, c, rfl, Nat.zero_lt_one, by simp, ?_, rfl,
        by show (0 : Nat) < 10; decide, fun h0 => absurd h0 (lt_irrefl 0)⟩
      intro i v hi hv
      have hi0 : i = 0 := by omega
      subst hi0
      simp only [List.getElem?_cons_zero, Option.some.injEq] at hv
      exact le_of_eq hv
    obtain ⟨hs, hn⟩ := KerasCallbacks.es_run_spec (c :: cs) cs 1 _ (by simp) hI
    rw [hrun]
    constructor
    · intro e he
      obtain ⟨h10, hlen, hwin, m, hbest, hbval, hble, hminall⟩ := hs e he
      refine ⟨h10, hlen, hwin, ?_, m, hbest, hbval, hble, hminall⟩
      simp [KerasCallbacks.final_weights, he]
    · rintro ⟨e, h10, hlen, hwin⟩ hnone
      exact hn hnone e (by omega) h10 hlen hwin

/-- Witness for C7: on the loss sequence 3, 2, 2, ..., 2 (one improvement
at epoch 1, then ten non-improving epochs), the callback stops at epoch 11
with the 10-epoch window unimproved and the best-epoch weights restored. -/
theorem C7_early_stopping_patience_10_witness :
    (KerasCallbacks.early_stopping TrainModel.early_stopping_callback.patience
        [3, 2, 2, 2, 2, 2, 2, 2, 2, 2, 2, 2]).stopped_epoch = some 11
    ∧ (([3, 2, 2, 2, 2, 2, 2, 2, 2, 2, 2, 2] : List Rat).take (11 + 1)).minimum
        = (([3, 2, 2, 2, 2, 2, 2, 2, 2, 2, 2, 2] : List Rat).take (11 - 9)).minimum
    ∧ KerasCallbacks.final_weights
        (KerasCallbacks.early_stopping TrainModel.early_stopping_callback.patience
          [3, 2, 2, 2, 2, 2, 2, 2, 2, 2, 2, 2])
        ([3, 2, 2, 2, 2, 2, 2, 2, 2, 2, 2, 2] : List Rat).length
      = (KerasCallbacks.early_stopping TrainModel.early_stopping_callback.patience
          [3, 2, 2, 2, 2, 2, 2, 2, 2, 2, 2, 2]).best_epoch := by
  have hstop : (KerasCallbacks.early_stopping TrainModel.early_stopping_callback.patience
      [3, 2, 2, 2, 2, 2, 2, 2, 2, 2, 2, 2]).stopped_epoch = some 11 := by decide
  have h := (C7_early_stopping_patience_10 [3, 2, 2, 2, 2, 2, 2, 2, 2, 2, 2, 2]).1 11 hstop
  exact ⟨hstop, h.2.2.1, h.2.2.2.1⟩
